import Mathlib

/-
  Verification of the Qumulo GCP provisioner
  (compute/module/sub-modules/qprovisioner/scripts/provision.py and
  firestore_vm.py) against its natural-language specification.

  Python strings are embedded as lists of characters (Str); machine-level
  details that the provisioner never relies on (Unicode numeric-literal
  underscores in int(), non-ASCII digit classes) are noted where they are
  simplified.  External collaborators (the qq management CLI, gcloud, the
  Firestore HTTP client) are modelled as oracle functions supplied in an
  environment record; the provisioner's own control flow, list arithmetic
  and error raising are translated statement by statement from the source.
-/

/-- A Python string, embedded as its list of characters. -/
abbrev Str := List Char

/-- Shorthand turning a Lean string literal into the embedded type. -/
def pstr (s : String) : Str := s.toList

/-- Python str.isspace character class for the whitespace stripped by
str.strip(); ASCII portion (space, tab, newline, carriage return,
vertical tab, form feed). -/
def pyIsSpace (c : Char) : Bool :=
  c == ' ' || c == '\t' || c == '\n' || c == '\r' ||
  c == Char.ofNat 11 || c == Char.ofNat 12

/-- Python str.strip(): drop whitespace from both ends. -/
def pyStrip (s : Str) : Str :=
  ((s.dropWhile pyIsSpace).reverse.dropWhile pyIsSpace).reverse

/-- Python s.split(sep) for a one-character separator:
"".split(",") = [""], "a,b".split(",") = ["a","b"], ",".split(",") = ["", ""]. -/
def splitOnChar (sep : Char) : Str → List Str
  | [] => [[]]
  | c :: rest =>
    if c = sep then [] :: splitOnChar sep rest
    else
      match splitOnChar sep rest with
      | [] => [[c]]
      | w :: ws => (c :: w) :: ws

/-- Python sep.join(items) for a one-character separator. -/
def pyJoin (sep : Char) : List Str → Str
  | [] => []
  | [x] => x
  | x :: y :: rest => x ++ sep :: pyJoin sep (y :: rest)

/-- Numeric value of a digit string (value of Python int() on an
all-digit string). -/
def digitsToNat (s : Str) : Nat :=
  s.foldl (fun acc c => 10 * acc + (c.toNat - '0'.toNat)) 0

/-- Python s.isdigit() restricted to ASCII: nonempty and all digits. -/
def pyIsDigit (s : Str) : Bool :=
  !s.isEmpty && s.all Char.isDigit

/-- Python int(s) for the strings this program stores: optional
surrounding whitespace, optional sign, then digits; None models the
ValueError raise.  (Numeric-literal underscores are not modelled.) -/
def pyInt (s : Str) : Option Int :=
  match pyStrip s with
  | '-' :: ds => if pyIsDigit ds then some (-(digitsToNat ds : Int)) else none
  | '+' :: ds => if pyIsDigit ds then some (digitsToNat ds : Int) else none
  | ds => if pyIsDigit ds then some (digitsToNat ds : Int) else none

/-- provision.py vercomp: 0 if equal, 1 if version1 < version2,
2 if version1 > version2; per-field numeric comparison after zero
padding, a non-digit field counting as 0. -/
def vercompFieldNum (p : Str) : Nat :=
  if pyIsDigit p then digitsToNat p else 0

/-- The indexed comparison loop of vercomp over the padded field lists. -/
def vercompLoop : List Str → List Str → Nat
  | a :: as, b :: bs =>
    if vercompFieldNum a > vercompFieldNum b then 2
    else if vercompFieldNum a < vercompFieldNum b then 1
    else vercompLoop as bs
  | _, _ => 0

/-- provision.py vercomp(version1, version2). -/
def vercomp (version1 version2 : Str) : Nat :=
  if version1 = version2 then 0
  else
    let v1_parts := splitOnChar '.' version1
    let v2_parts := splitOnChar '.' version2
    let max_len := max v1_parts.length v2_parts.length
    let v1_padded := v1_parts ++ List.replicate (max_len - v1_parts.length) (pstr "0")
    let v2_padded := v2_parts ++ List.replicate (max_len - v2_parts.length) (pstr "0")
    vercompLoop v1_padded v2_padded

/-- provision.py serialize_list_for_firestore. -/
def serialize_list_for_firestore (items : List Str) : Str :=
  if items.isEmpty then [] else pyJoin ',' items

/-- provision.py deserialize_list_from_firestore. -/
def deserialize_list_from_firestore (value : Str) : List Str :=
  if value = [] ∨ value = pstr "null" then []
  else (splitOnChar ',' value).map pyStrip

/-! ### Lemmas about the comma codec -/

theorem splitOnChar_cons_sep (sep : Char) (r : Str) :
    splitOnChar sep (sep :: r) = [] :: splitOnChar sep r := by
  simp [splitOnChar]

theorem splitOnChar_ne_nil (sep : Char) (s : Str) : splitOnChar sep s ≠ [] := by
  induction s with
  | nil => simp [splitOnChar]
  | cons c rest ih =>
    by_cases h : c = sep
    · subst h; simp [splitOnChar]
    · simp only [splitOnChar, if_neg h]
      cases hsp : splitOnChar sep rest with
      | nil => simp
      | cons w ws => simp

theorem splitOnChar_of_not_mem {sep : Char} {x : Str} (h : sep ∉ x) :
    splitOnChar sep x = [x] := by
  induction x with
  | nil => simp [splitOnChar]
  | cons c rest ih =>
    have hc : c ≠ sep := fun hc => h (hc ▸ List.mem_cons_self c rest)
    have hrest : sep ∉ rest := fun hm => h (List.mem_cons_of_mem c hm)
    simp only [splitOnChar, if_neg hc, ih hrest]

theorem splitOnChar_append_sep {sep : Char} {x r : Str} (h : sep ∉ x) :
    splitOnChar sep (x ++ sep :: r) = x :: splitOnChar sep r := by
  induction x with
  | nil => simpa using splitOnChar_cons_sep sep r
  | cons c rest ih =>
    have hc : c ≠ sep := fun hc => h (hc ▸ List.mem_cons_self c rest)
    have hrest : sep ∉ rest := fun hm => h (List.mem_cons_of_mem c hm)
    simp only [List.cons_append, splitOnChar, if_neg hc, List.append_eq, ih hrest]

theorem split_join_map_strip {L : List Str}
    (h : ∀ x ∈ L, ',' ∉ x ∧ pyStrip x = x) (hne : L ≠ []) :
    (splitOnChar ',' (pyJoin ',' L)).map pyStrip = L := by
  induction L with
  | nil => exact absurd rfl hne
  | cons x rest ih =>
    obtain ⟨hx, hxs⟩ := h x (List.mem_cons_self x rest)
    cases rest with
    | nil =>
      simp only [pyJoin, splitOnChar_of_not_mem hx, List.map, hxs]
    | cons y tail =>
      have hrest : ∀ z ∈ y :: tail, ',' ∉ z ∧ pyStrip z = z :=
        fun z hz => h z (List.mem_cons_of_mem x hz)
      have := ih hrest (by simp)
      simp only [pyJoin, splitOnChar_append_sep hx, List.map, hxs, this]

theorem comma_mem_join_cons_cons (x y : Str) (rest : List Str) :
    ',' ∈ pyJoin ',' (x :: y :: rest) := by
  simp [pyJoin]

/-- Claim C5 counterexample: the single-element list containing the string
"null" encodes to the bare string "null", which the decoder maps to the
empty list, so the round-trip identity fails on it. -/
theorem serialize_roundtrip_cex :
    deserialize_list_from_firestore
      (serialize_list_for_firestore [pstr "null"]) ≠ [pstr "null"] := by
  decide

/-- Claim C5 (amended): the encoding round-trips for every ordered list of
strings whose elements contain no comma and carry no leading or trailing
whitespace, excluding the two lists whose encoding collides with a decoder
sentinel: the singleton of the empty string (encodes to the empty string)
and the singleton of the string "null".  The empty list itself round-trips
(empty string encoding). -/
theorem serialize_roundtrip (L : List Str)
    (hcs : ∀ x ∈ L, ',' ∉ x ∧ pyStrip x = x)
    (h1 : L ≠ [[]]) (h2 : L ≠ [pstr "null"]) :
    deserialize_list_from_firestore (serialize_list_for_firestore L) = L := by
  cases L with
  | nil => decide
  | cons x rest =>
    cases rest with
    | nil =>
      have hx : x ≠ [] := fun hx => h1 (by rw [hx])
      have hxnull : x ≠ pstr "null" := fun hx => h2 (by rw [hx])
      simp only [serialize_list_for_firestore, List.isEmpty_cons, if_neg Bool.false_ne_true,
        pyJoin, deserialize_list_from_firestore]
      rw [if_neg (by push_neg; exact ⟨hx, hxnull⟩)]
      exact split_join_map_strip hcs (by simp)
    | cons y tail =>
      have hmem : ',' ∈ pyJoin ',' (x :: y :: tail) :=
        comma_mem_join_cons_cons x y tail
      have hne : pyJoin ',' (x :: y :: tail) ≠ [] := by
        intro hnil; rw [hnil] at hmem; exact (List.not_mem_nil ',') hmem
      have hnn : pyJoin ',' (x :: y :: tail) ≠ pstr "null" := by
        intro heq; rw [heq] at hmem; revert hmem; decide
      simp only [serialize_list_for_firestore, List.isEmpty_cons, if_neg Bool.false_ne_true,
        deserialize_list_from_firestore]
      rw [if_neg (by push_neg; exact ⟨hne, hnn⟩)]
      exact split_join_map_strip hcs (by simp)

/-- Claim C5 witness: a concrete two-IP list round-trips. -/
theorem serialize_roundtrip_witness :
    deserialize_list_from_firestore
      (serialize_list_for_firestore [pstr "10.0.0.1", pstr "10.0.0.2"]) =
      [pstr "10.0.0.1", pstr "10.0.0.2"] :=
  serialize_roundtrip [pstr "10.0.0.1", pstr "10.0.0.2"]
    (by decide) (by decide) (by decide)

/-- Claim C6: vercomp compares versions numerically field by field with
zero padding, not lexicographically: "7.6.0" equals "7.6.0", "7.5.9" is
less than "7.6.0", and "7.10" is greater than "7.6.0". -/
theorem vercomp_numeric_not_lexicographic :
    vercomp (pstr "7.6.0") (pstr "7.6.0") = 0 ∧
    vercomp (pstr "7.5.9") (pstr "7.6.0") = 1 ∧
    vercomp (pstr "7.10") (pstr "7.6.0") = 2 := by
  decide

/-! ### The planner: determine_cluster_operations -/

/-- The operation flag dictionary built by determine_cluster_operations. -/
structure OperationFlags where
  new_cluster : Bool
  add_nodes : Bool
  remove_nodes : Bool
  add_buckets : Bool
  increase_limit : Bool
deriving DecidableEq, Repr

/-- The all-false initial flag dictionary. -/
def initFlags : OperationFlags :=
  { new_cluster := false, add_nodes := false, remove_nodes := false,
    add_buckets := false, increase_limit := false }

/-- Python exceptions raised by the embedded code: ProvisioningError with
its message, ValueError from int(), IndexError from a [0] index on an
empty match list. -/
inductive PyError where
  | provisioningError (msg : String)
  | valueError
  | indexError
deriving DecidableEq, Repr

/-- The configuration fields of ProvisioningConfig that the embedded
operations read. -/
structure Config where
  node_ips : List Str
  node1_ip : Str
  fault_domain_ids : List Str
  instance_ids : List Str
  target_node_count : Nat
  bucket_names : List Str
  bucket_uris : List Str
  capacity_limit : Int
  floating_ips : List Str
  replace_cluster : Bool
  dev_environment : Bool
  cluster_persistent_storage_type : Str
  tun_refill_iops : Int
  tun_refill_bps : Int
  tun_disk_count : Int

/-- Read-only oracle for one planning run.  fsGet models
firestore.get(key) on the current deployment's document (returning the
string "null" for an absent field, as firestore_vm.py does); fsGetEx
models firestore.get(key, existing_deployment_name); quorumDetails is
the (all_nodes, in_nodes, out_nodes) triple parsed by
parse_quorum_details(node1_ip); nodeVersion ip is get_qfsd_version(ip).
Status-log writes (update_status) touch only the append-only
last-run-status document, which nothing in the planner reads back, so
they do not appear in the model. -/
structure PlanEnv where
  fsGet : Str → Str
  fsGetEx : Str → Str
  quorumDetails : List Str × List Str × List Str
  nodeVersion : Str → Str

/-- The additions list computed at provision.py lines 711 and 1254:
target IPs absent from the persisted list. -/
def upgradeIps (node_ips old_ips : List Str) : List Str :=
  node_ips.filter (fun ip => decide (ip ∉ old_ips))

/-- The persisted soft-capacity-limit string the planner compares
against: read from the existing deployment on a replacement run, else
from the current deployment (provision.py lines 730-738). -/
def persistedLimitStr (cfg : Config) (env : PlanEnv) : Str :=
  if cfg.replace_cluster then env.fsGetEx (pstr "soft-capacity-limit")
  else env.fsGet (pstr "soft-capacity-limit")

/-- First half of determine_cluster_operations (provision.py lines
681-727): the quorum-survey branch and, on the existing-cluster path,
the node add/remove decisions.  The dictionary mutations of the source
are expressed as the flag record each branch returns. -/
def nodePhase (cfg : Config) (env : PlanEnv) (out_quorum in_quorum : Nat) :
    Except PyError OperationFlags :=
  if out_quorum = cfg.node_ips.length ∧ in_quorum = 0 then
    .ok { initFlags with new_cluster := true }
  else
    let out_nodes := env.quorumDetails.2.2
    if out_nodes.length > 0 then
      .error (.provisioningError "One or more nodes out of quorum in existing cluster. Rectify and restart the provisioner instance.")
    else
      let old_ips_str := env.fsGet (pstr "node-ips")
      if old_ips_str ≠ pstr "null" then
        let old_ips := deserialize_list_from_firestore old_ips_str
        let new_ips := cfg.node_ips
        let remove_flag := decide (old_ips.length > cfg.target_node_count)
        match upgradeIps new_ips old_ips with
        | [] => .ok { initFlags with remove_nodes := remove_flag }
        | ip0 :: _ =>
          let add_ver := env.nodeVersion ip0
          let current_ver := env.fsGet (pstr "installed-version")
          if current_ver ≠ add_ver then
            .error (.provisioningError "Cluster version mismatch: cannot add nodes running a different version.")
          else
            .ok { initFlags with add_nodes := true, remove_nodes := remove_flag }
      else
        .ok initFlags

/-- The persisted bucket-name list the planner diffs against: read from
the existing deployment on a replacement run, else from the current
deployment (provision.py lines 730-738). -/
def persistedBucketNames (cfg : Config) (env : PlanEnv) : List Str :=
  deserialize_list_from_firestore
    (if cfg.replace_cluster then env.fsGetEx (pstr "bucket-names")
     else env.fsGet (pstr "bucket-names"))

/-- The persisted bucket-URI list the planner diffs against (provision.py
lines 730-738). -/
def persistedBucketUris (cfg : Config) (env : PlanEnv) : List Str :=
  deserialize_list_from_firestore
    (if cfg.replace_cluster then env.fsGetEx (pstr "bucket-uris")
     else env.fsGet (pstr "bucket-uris"))

/-- Second half of determine_cluster_operations (provision.py lines
729-753): bucket additions and the capacity-limit increase. -/
def bucketPhase (cfg : Config) (env : PlanEnv) (flags : OperationFlags) :
    Except PyError OperationFlags :=
  let old_bucket_names := persistedBucketNames cfg env
  let old_bucket_uris := persistedBucketUris cfg env
  let old_limit_str := persistedLimitStr cfg env
  if flags.new_cluster = false ∨ cfg.replace_cluster = true then
    let new_bucket_names := cfg.bucket_names.filter (fun n => decide (n ∉ old_bucket_names))
    let new_bucket_uris := cfg.bucket_uris.filter (fun u => decide (u ∉ old_bucket_uris))
    let flags1 :=
      if new_bucket_names ≠ [] ∧ new_bucket_uris ≠ [] then
        { flags with add_buckets := true }
      else flags
    if old_limit_str ≠ pstr "null" then
      match pyInt old_limit_str with
      | none => .error .valueError
      | some old_limit =>
        if cfg.capacity_limit > old_limit ∧ flags1.add_buckets = false then
          .ok { flags1 with increase_limit := true }
        else
          .ok flags1
    else
      .ok flags1
  else
    .ok flags

/-- provision.py determine_cluster_operations: the node phase followed by
the bucket phase, in source order. -/
def determine_cluster_operations (cfg : Config) (env : PlanEnv)
    (out_quorum in_quorum : Nat) : Except PyError OperationFlags :=
  match nodePhase cfg env out_quorum in_quorum with
  | .error e => .error e
  | .ok flags => bucketPhase cfg env flags

/-! ### Structural lemmas about the planner phases -/

theorem nodePhase_bucket_fields {cfg : Config} {env : PlanEnv} {oq iq : Nat}
    {flags : OperationFlags} (h : nodePhase cfg env oq iq = .ok flags) :
    flags.add_buckets = false ∧ flags.increase_limit = false := by
  simp only [nodePhase] at h
  repeat' split at h
  all_goals first
    | exact Except.noConfusion h
    | (simp only [Except.ok.injEq] at h; subst h; exact ⟨rfl, rfl⟩)

theorem bucketPhase_preserves_node_flags {cfg : Config} {env : PlanEnv}
    {flags flags' : OperationFlags} (h : bucketPhase cfg env flags = .ok flags') :
    flags'.new_cluster = flags.new_cluster ∧
    flags'.add_nodes = flags.add_nodes ∧
    flags'.remove_nodes = flags.remove_nodes := by
  simp only [bucketPhase] at h
  repeat' split at h
  all_goals first
    | exact Except.noConfusion h
    | (simp only [Except.ok.injEq] at h; subst h; exact ⟨rfl, rfl, rfl⟩)

theorem bucketPhase_increase {cfg : Config} {env : PlanEnv}
    {flags flags' : OperationFlags} (h : bucketPhase cfg env flags = .ok flags')
    (hinc : flags'.increase_limit = true) (hfl : flags.increase_limit = false) :
    flags'.add_buckets = false ∧
    ∃ old, pyInt (persistedLimitStr cfg env) = some old ∧ cfg.capacity_limit > old := by
  simp only [bucketPhase] at h
  split at h
  case isFalse =>
    simp only [Except.ok.injEq] at h; subst h
    exact absurd hinc (by simp [hfl])
  case isTrue hcond =>
    split at h
    case isFalse =>
      simp only [Except.ok.injEq] at h; subst h
      split at hinc <;> simp_all
    case isTrue hnull =>
      split at h
      next heq => exact Except.noConfusion h
      next old heq =>
        split at h
        case isTrue hbkt =>
          split at h
          case isTrue hcap => exact absurd hcap.2 (by simp)
          case isFalse hcap =>
            simp only [Except.ok.injEq] at h; subst h
            exact absurd hinc (by simp [hfl])
        case isFalse hbkt =>
          split at h
          case isTrue hcap =>
            simp only [Except.ok.injEq] at h; subst h
            exact ⟨hcap.2, old, heq, hcap.1⟩
          case isFalse hcap =>
            simp only [Except.ok.injEq] at h; subst h
            exact absurd hinc (by simp [hfl])

/-! ### Claim C1: all nodes out of quorum -/

/-- Concrete replacement-run configuration for the C1 counterexample:
one fresh node, one target bucket, replace_cluster set. -/
def cfgC1 : Config :=
  { node_ips := [pstr "10.0.0.1"], node1_ip := pstr "10.0.0.1",
    fault_domain_ids := [pstr "1"], instance_ids := [pstr "i1"],
    target_node_count := 1, bucket_names := [pstr "bkt"],
    bucket_uris := [pstr "gs://bkt"], capacity_limit := 1000,
    floating_ips := [], replace_cluster := true, dev_environment := false,
    cluster_persistent_storage_type := pstr "hot_gcs_std",
    tun_refill_iops := 0, tun_refill_bps := 0, tun_disk_count := 0 }

/-- The same deployment with replace_cluster unset, for the C1 witness. -/
def cfgC1nr : Config := { cfgC1 with replace_cluster := false }

/-- Planner oracle for C1: firestore holds no prior record (every read
answers "null"), detailed quorum is empty. -/
def envC1 : PlanEnv :=
  { fsGet := fun _ => pstr "null", fsGetEx := fun _ => pstr "null",
    quorumDetails := ([], [], []), nodeVersion := fun _ => pstr "" }

/-- Claim C1 counterexample: with the survey reporting every node out of
quorum (1 out, 0 in for a one-node list) but replace_cluster set and a
bucket delta against the prior deployment, the planner returns
add_buckets = true alongside new_cluster = true, so the claimed
"every other flag false" fails. -/
theorem plan_all_out_cex :
    determine_cluster_operations cfgC1 envC1 1 0 =
      .ok { new_cluster := true, add_nodes := false, remove_nodes := false,
            add_buckets := true, increase_limit := false } ∧
    determine_cluster_operations cfgC1 envC1 1 0 ≠
      .ok { initFlags with new_cluster := true } := by
  refine ⟨by rfl, fun hcontra => ?_⟩
  rw [show determine_cluster_operations cfgC1 envC1 1 0 =
        .ok { new_cluster := true, add_nodes := false, remove_nodes := false,
              add_buckets := true, increase_limit := false } from rfl] at hcontra
  exact absurd (Except.ok.inj hcontra) (by decide)

/-- Claim C1 (amended): on a non-replacement run, if the survey reports
every configured node out of quorum and zero in quorum, the planner
returns exactly new_cluster and no other flag.  (On a replacement run the
bucket/capacity diff against the prior deployment may additionally set
add_buckets or increase_limit, as the counterexample shows.) -/
theorem plan_all_out_new_cluster_only (cfg : Config) (env : PlanEnv)
    (oq iq : Nat) (hrep : cfg.replace_cluster = false)
    (hout : oq = cfg.node_ips.length) (hin : iq = 0) :
    determine_cluster_operations cfg env oq iq =
      .ok { initFlags with new_cluster := true } := by
  unfold determine_cluster_operations nodePhase
  rw [if_pos ⟨hout, hin⟩]
  simp only [bucketPhase, hrep]
  simp

/-- Claim C1 witness: the amended theorem applied to the concrete
non-replacement one-node deployment. -/
theorem plan_all_out_new_cluster_only_witness :
    determine_cluster_operations cfgC1nr envC1 1 0 =
      .ok { initFlags with new_cluster := true } :=
  plan_all_out_new_cluster_only cfgC1nr envC1 1 0 rfl rfl rfl

/-! ### Claim C7: increase_limit is guarded and exclusive with add_buckets -/

/-- Claim C7: in any planning run that returns flags, increase_limit is
set only when add_buckets is not set in the same run and the target
capacity limit strictly exceeds the parsed persisted limit; in
particular the returned flag set never has both add_buckets and
increase_limit true. -/
theorem plan_increase_limit_exclusive {cfg : Config} {env : PlanEnv}
    {oq iq : Nat} {flags : OperationFlags}
    (h : determine_cluster_operations cfg env oq iq = .ok flags)
    (hinc : flags.increase_limit = true) :
    flags.add_buckets = false ∧
    ∃ old, pyInt (persistedLimitStr cfg env) = some old ∧
      cfg.capacity_limit > old := by
  unfold determine_cluster_operations at h
  cases hnp : nodePhase cfg env oq iq with
  | error e => rw [hnp] at h; exact Except.noConfusion h
  | ok f0 =>
    rw [hnp] at h
    exact bucketPhase_increase h hinc (nodePhase_bucket_fields hnp).2

/-- Planner oracle for the C7 witness: a persisted limit of 100 and no
other persisted state; one node in quorum. -/
def envC7 : PlanEnv :=
  { fsGet := fun k => if k = pstr "soft-capacity-limit" then pstr "100" else pstr "null",
    fsGetEx := fun _ => pstr "null",
    quorumDetails := ([], [], []), nodeVersion := fun _ => pstr "" }

/-- Configuration for the C7 witness: no buckets, target limit 200. -/
def cfgC7 : Config :=
  { cfgC1nr with bucket_names := [], bucket_uris := [], capacity_limit := 200 }

/-- Claim C7 witness: a concrete run that flags increase_limit satisfies
the guard, via the theorem. -/
theorem plan_increase_limit_exclusive_witness :
    ({ initFlags with increase_limit := true } : OperationFlags).add_buckets = false ∧
    ∃ old, pyInt (persistedLimitStr cfgC7 envC7) = some old ∧
      cfgC7.capacity_limit > old :=
  @plan_increase_limit_exclusive cfgC7 envC7 0 1
    { initFlags with increase_limit := true } (by rfl) (by rfl)

/-! ### Claim C2: add/remove decisions on the existing-cluster path -/

/-- Claim C2 (amended): on the existing-cluster path (survey not
all-out/0-in, detailed membership shows no out-of-quorum node, a
persisted node-ips record P exists, the new-node version check passes),
a successful planning run flags add_nodes iff the target list contains
an IP not in P, and flags remove_nodes iff len(P) > target_node_count.
The claimed disjointness between additions and the removal selection
holds under the proviso that every IP in the target tail beyond
target_node_count already appears in P; without that proviso a single IP
can be both an addition and part of the removal tail (see the
counterexample), because remove_cluster_nodes selects its removal ids
from the tail of the target list, not of P. -/
theorem plan_add_remove_disjoint {cfg : Config} {env : PlanEnv} {oq iq : Nat}
    {flags : OperationFlags}
    (hq : ¬ (oq = cfg.node_ips.length ∧ iq = 0))
    (hout : env.quorumDetails.2.2 = [])
    (hrec : env.fsGet (pstr "node-ips") ≠ pstr "null")
    (hver : ∀ ip0 rest,
      upgradeIps cfg.node_ips
          (deserialize_list_from_firestore (env.fsGet (pstr "node-ips"))) = ip0 :: rest →
      env.fsGet (pstr "installed-version") = env.nodeVersion ip0)
    (h : determine_cluster_operations cfg env oq iq = .ok flags) :
    ((flags.add_nodes = true) ↔ ∃ ip ∈ cfg.node_ips,
        ip ∉ deserialize_list_from_firestore (env.fsGet (pstr "node-ips"))) ∧
    ((flags.remove_nodes = true) ↔
      (deserialize_list_from_firestore (env.fsGet (pstr "node-ips"))).length >
        cfg.target_node_count) ∧
    ((∀ ip ∈ cfg.node_ips.drop cfg.target_node_count,
        ip ∈ deserialize_list_from_firestore (env.fsGet (pstr "node-ips"))) →
      ∀ ip ∈ upgradeIps cfg.node_ips
          (deserialize_list_from_firestore (env.fsGet (pstr "node-ips"))),
        ip ∉ cfg.node_ips.drop cfg.target_node_count) := by
  have hdisj : (∀ ip ∈ cfg.node_ips.drop cfg.target_node_count,
      ip ∈ deserialize_list_from_firestore (env.fsGet (pstr "node-ips"))) →
      ∀ ip ∈ upgradeIps cfg.node_ips
        (deserialize_list_from_firestore (env.fsGet (pstr "node-ips"))),
      ip ∉ cfg.node_ips.drop cfg.target_node_count := by
    intro hsub ip hip hmemdrop
    have hnot := (List.mem_filter.mp hip).2
    rw [decide_eq_true_eq] at hnot
    exact hnot (hsub ip hmemdrop)
  simp only [determine_cluster_operations, nodePhase] at h
  rw [if_neg hq] at h
  rw [if_neg (show ¬ (env.quorumDetails.2.2.length > 0) by rw [hout]; simp)] at h
  rw [if_pos hrec] at h
  cases hup : upgradeIps cfg.node_ips
      (deserialize_list_from_firestore (env.fsGet (pstr "node-ips"))) with
  | nil =>
    simp only [hup] at h
    obtain ⟨_, hadd, hrem⟩ := bucketPhase_preserves_node_flags h
    refine ⟨?_, ?_, fun _ ip hip => absurd hip (List.not_mem_nil ip)⟩
    · rw [hadd]
      constructor
      · intro hfalse; exact absurd hfalse (by simp [initFlags])
      · rintro ⟨ip, hipT, hipP⟩
        have hmem : ip ∈ upgradeIps cfg.node_ips
            (deserialize_list_from_firestore (env.fsGet (pstr "node-ips"))) :=
          List.mem_filter.mpr ⟨hipT, by simpa using hipP⟩
        rw [hup] at hmem
        exact absurd hmem (List.not_mem_nil ip)
    · rw [hrem]
      simp [initFlags]
  | cons ip0 rest =>
    simp only [hup] at h
    rw [if_neg (fun hne => hne (hver ip0 rest hup))] at h
    obtain ⟨_, hadd, hrem⟩ := bucketPhase_preserves_node_flags h
    refine ⟨?_, ?_, fun hsub ip hip => hdisj hsub ip (by rw [hup]; exact hip)⟩
    · rw [hadd]
      constructor
      · intro _
        have hmem : ip0 ∈ upgradeIps cfg.node_ips
            (deserialize_list_from_firestore (env.fsGet (pstr "node-ips"))) := by
          rw [hup]; exact List.mem_cons_self ip0 rest
        have := List.mem_filter.mp hmem
        exact ⟨ip0, this.1, by simpa using this.2⟩
      · intro _; rfl
    · rw [hrem]
      simp [initFlags]

/-- Configuration for the C2 counterexample: persisted cluster
[.1, .2, .3], target list [.1, .2, .4] with target_node_count 2, so .4
is an unseen addition that also sits in the removal tail. -/
def cfgC2 : Config :=
  { node_ips := [pstr "10.0.0.1", pstr "10.0.0.2", pstr "10.0.0.4"],
    node1_ip := pstr "10.0.0.1",
    fault_domain_ids := [pstr "1", pstr "2", pstr "3"],
    instance_ids := [pstr "i1", pstr "i2", pstr "i3"],
    target_node_count := 2, bucket_names := [], bucket_uris := [],
    capacity_limit := 1000, floating_ips := [], replace_cluster := false,
    dev_environment := false,
    cluster_persistent_storage_type := pstr "hot_gcs_std",
    tun_refill_iops := 0, tun_refill_bps := 0, tun_disk_count := 0 }

/-- Planner oracle for C2: the persisted node-ips record is
"10.0.0.1,10.0.0.2,10.0.0.3", all nodes in quorum, versions match. -/
def envC2 : PlanEnv :=
  { fsGet := fun k =>
      if k = pstr "node-ips" then pstr "10.0.0.1,10.0.0.2,10.0.0.3"
      else if k = pstr "installed-version" then pstr "7.6.0"
      else pstr "null",
    fsGetEx := fun _ => pstr "null",
    quorumDetails := ([pstr "1", pstr "2", pstr "3"],
                      [pstr "1", pstr "2", pstr "3"], []),
    nodeVersion := fun _ => pstr "7.6.0" }

/-- Claim C2 counterexample: this run flags add_nodes and remove_nodes
together, and the single IP 10.0.0.4 is both counted as an addition
(it is in the target list but not in the persisted list) and selected
for removal (it sits in the target tail beyond target_node_count, which
is exactly the slice remove_cluster_nodes removes). -/
theorem plan_add_remove_disjoint_cex :
    determine_cluster_operations cfgC2 envC2 0 3 =
      .ok { new_cluster := false, add_nodes := true, remove_nodes := true,
            add_buckets := false, increase_limit := false } ∧
    pstr "10.0.0.4" ∈ upgradeIps cfgC2.node_ips
      (deserialize_list_from_firestore (envC2.fsGet (pstr "node-ips"))) ∧
    pstr "10.0.0.4" ∈ cfgC2.node_ips.drop cfgC2.target_node_count := by
  exact ⟨by rfl, by decide, by decide⟩

/-- Configuration for the C2 witness: same deployment but with
target_node_count equal to the target list length (a pure addition run). -/
def cfgC2w : Config := { cfgC2 with target_node_count := 3 }

/-- The flag set the C2 witness run returns. -/
def flagsC2w : OperationFlags :=
  { new_cluster := false, add_nodes := true, remove_nodes := false,
    add_buckets := false, increase_limit := false }

/-- Claim C2 witness: the amended theorem applied to the concrete
addition-only run. -/
theorem plan_add_remove_disjoint_witness :
    ((flagsC2w.add_nodes = true) ↔ ∃ ip ∈ cfgC2w.node_ips,
        ip ∉ deserialize_list_from_firestore (envC2.fsGet (pstr "node-ips"))) ∧
    ((flagsC2w.remove_nodes = true) ↔
      (deserialize_list_from_firestore (envC2.fsGet (pstr "node-ips"))).length >
        cfgC2w.target_node_count) ∧
    ((∀ ip ∈ cfgC2w.node_ips.drop cfgC2w.target_node_count,
        ip ∈ deserialize_list_from_firestore (envC2.fsGet (pstr "node-ips"))) →
      ∀ ip ∈ upgradeIps cfgC2w.node_ips
          (deserialize_list_from_firestore (envC2.fsGet (pstr "node-ips"))),
        ip ∉ cfgC2w.node_ips.drop cfgC2w.target_node_count) :=
  @plan_add_remove_disjoint cfgC2w envC2 0 3 flagsC2w
    (by decide) (by rfl) (by decide)
    (fun ip0 rest hup => by
      have h' : [pstr "10.0.0.4"] = ip0 :: rest := hup
      cases h'
      rfl)
    (by rfl)

/-! ### Claim C9: the quorum survey -/

/-- Python substring containment (the ACTIVE check on qq output). -/
def listContainsSub (hay needle : Str) : Bool :=
  match hay with
  | [] => needle.isEmpty
  | _ :: rest => needle.isPrefixOf hay || listContainsSub rest needle

/-- Oracle for one survey run.  probeState ip is the stdout of
qq node_state_get on that node, none when the command raised
(unreachable/erroring node); probeVersionLine ip is the version string
get_qfsd_version(ip) extracts from qq version output ("" when no
revision_id line matched), none when that command raised.  The firestore
status/record writes inside the survey do not influence its return value
and are modelled as succeeding. -/
structure SurveyEnv where
  probeState : Str → Option Str
  probeVersionLine : Str → Option Str

/-- One iteration of the survey loop (provision.py lines 566-578):
a raised probe or a probe without ACTIVE counts the node out of quorum,
an ACTIVE probe counts it in quorum. -/
def surveyProbeStep (probeState : Str → Option Str) (acc : Nat × Nat)
    (node_ip : Str) : Nat × Nat :=
  match probeState node_ip with
  | none => (acc.1 + 1, acc.2)
  | some quorum_status =>
    if listContainsSub quorum_status (pstr "ACTIVE") then (acc.1, acc.2 + 1)
    else (acc.1 + 1, acc.2)

/-- The per-node survey loop: (out_quorum, in_quorum) counters. -/
def surveyLoop (probeState : Str → Option Str) (node_ips : List Str) : Nat × Nat :=
  node_ips.foldl (surveyProbeStep probeState) (0, 0)

/-- provision.py survey_cluster_state: the probe loop, then the version
read from the first node; the version read is a plain qq command whose
failure is NOT caught, so it propagates out of the survey. -/
def survey_cluster_state (env : SurveyEnv) (node_ips : List Str) :
    Except PyError (Nat × Nat × Str) :=
  let counts := surveyLoop env.probeState node_ips
  match node_ips with
  | [] => .ok (counts.1, counts.2, [])
  | ip0 :: _ =>
    match env.probeVersionLine ip0 with
    | none => .error (.provisioningError "Command failed: qq version")
    | some qfsd_version => .ok (counts.1, counts.2, qfsd_version)

theorem surveyLoop_sum_aux (probeState : Str → Option Str) (ips : List Str) :
    ∀ a b : Nat,
      (ips.foldl (surveyProbeStep probeState) (a, b)).1 +
        (ips.foldl (surveyProbeStep probeState) (a, b)).2 = a + b + ips.length := by
  induction ips with
  | nil => intro a b; simp
  | cons ip rest ih =>
    intro a b
    simp only [List.foldl_cons, List.length_cons]
    cases hp : probeState ip with
    | none =>
      simp only [surveyProbeStep, hp]
      rw [ih (a + 1) b]; omega
    | some s =>
      simp only [surveyProbeStep, hp]
      by_cases hact : listContainsSub s (pstr "ACTIVE")
      · rw [if_pos hact, ih a (b + 1)]; omega
      · rw [if_neg hact, ih (a + 1) b]; omega

/-- Environment for the C9 counterexample: the one configured node
answers its quorum probe ACTIVE, but the version command on it raises. -/
def envC9 : SurveyEnv :=
  { probeState := fun _ => some (pstr "state: ACTIVE"),
    probeVersionLine := fun _ => none }

/-- Claim C9 counterexample: a probe failure CAN abort the survey.  With
every node_state_get probe succeeding but the uncaught qq version probe
on node_ips[0] raising, survey_cluster_state propagates the error and
returns no counts at all. -/
theorem survey_counts_cex :
    survey_cluster_state envC9 [pstr "10.0.0.1"] =
      .error (.provisioningError "Command failed: qq version") := by
  rfl

/-- Claim C9 (amended): the per-node quorum probe loop never aborts — a
raised or non-ACTIVE probe counts that node out of quorum and the loop
continues — and whenever the (uncaught) version command on the first
node succeeds, or the node list is empty, the survey returns counts with
out_quorum + in_quorum = len(node_ips).  A version-command failure on
node_ips[0] instead aborts the survey (see the counterexample). -/
theorem survey_counts_sum (env : SurveyEnv) (node_ips : List Str)
    (hver : ∀ ip0, node_ips.head? = some ip0 →
      (env.probeVersionLine ip0).isSome = true) :
    ∃ oq iq v, survey_cluster_state env node_ips = .ok (oq, iq, v) ∧
      oq + iq = node_ips.length := by
  cases node_ips with
  | nil => exact ⟨0, 0, [], rfl, rfl⟩
  | cons ip0 rest =>
    have hs := hver ip0 rfl
    cases hpv : env.probeVersionLine ip0 with
    | none => rw [hpv] at hs; exact absurd hs (by simp)
    | some v =>
      refine ⟨(surveyLoop env.probeState (ip0 :: rest)).1,
              (surveyLoop env.probeState (ip0 :: rest)).2, v, ?_, ?_⟩
      · simp [survey_cluster_state, hpv]
      · simpa using surveyLoop_sum_aux env.probeState (ip0 :: rest) 0 0

/-- Environment for the C9 witness: second node unreachable, version
probe succeeds on the first node. -/
def envC9w : SurveyEnv :=
  { probeState := fun ip => if ip = pstr "10.0.0.1" then some (pstr "state: ACTIVE") else none,
    probeVersionLine := fun _ => some (pstr "7.6.1") }

/-- Claim C9 witness: the amended theorem at a concrete two-node list
with one unreachable node. -/
theorem survey_counts_sum_witness :
    ∃ oq iq v, survey_cluster_state envC9w [pstr "10.0.0.1", pstr "10.0.0.2"] =
        .ok (oq, iq, v) ∧
      oq + iq = [pstr "10.0.0.1", pstr "10.0.0.2"].length :=
  survey_counts_sum envC9w [pstr "10.0.0.1", pstr "10.0.0.2"]
    (fun ip0 h => by cases h; rfl)

/-! ### Claim C8: the timestamped status log -/

/-- JSON/Python dict assignment fields[k] = v on an insertion-ordered
association list with unique keys: overwrite in place when the key
exists, else append. -/
def dictSet (d : List (Str × Str)) (k v : Str) : List (Str × Str) :=
  if d.any (fun p => p.1 == k) then
    d.map (fun p => if p.1 == k then (k, v) else p)
  else d ++ [(k, v)]

/-- firestore_vm.py put_status_with_timestamp, field-map part: read the
existing last-run-status document (none = absent, replaced by the
minimal structure), then assign the month+day+time field key to the new
status and PATCH the whole field map back.  field_key is the
datetime.now()-derived label, supplied as an input here. -/
def put_status_fields (existing_doc : Option (List (Str × Str)))
    (field_key status : Str) : List (Str × Str) :=
  let fields := match existing_doc with
    | none => [(pstr "last-run-status", pstr "null")]
    | some fs => fs
  dictSet fields field_key status

/-- Claim C8 counterexample: two updates in the same second produce the
same month+day+time label, and the second OVERWRITES the first field's
value instead of appending, so an existing field is not left unchanged. -/
theorem put_status_append_only_cex :
    put_status_fields (some [(pstr "Jul_17_123456", pstr "old status")])
      (pstr "Jul_17_123456") (pstr "new status") =
      [(pstr "Jul_17_123456", pstr "new status")] ∧
    pstr "old status" ≠ pstr "new status" := by
  exact ⟨by rfl, by decide⟩

/-- Claim C8 (amended): whenever the timestamp label differs from every
field key already in the document — in particular whenever no two
updates fall in the same second — a status update appends exactly the
one new field and leaves every existing field unchanged, in place.  A
colliding label (same-second update) instead overwrites the earlier
value (see the counterexample). -/
theorem put_status_append_only (fs : List (Str × Str)) (field_key status : Str)
    (hfresh : ∀ p ∈ fs, p.1 ≠ field_key) :
    put_status_fields (some fs) field_key status = fs ++ [(field_key, status)] := by
  unfold put_status_fields dictSet
  rw [if_neg]
  simp only [List.any_eq_true, beq_iff_eq, not_exists, not_and]
  intro p hp
  exact hfresh p hp

/-- Claim C8 witness: appending a fresh-label status to a one-field
document preserves the old field and adds the new one. -/
theorem put_status_append_only_witness :
    put_status_fields (some [(pstr "Jul_17_120000", pstr "BOOTED")])
      (pstr "Jul_17_120005") (pstr "Checking quorum") =
      [(pstr "Jul_17_120000", pstr "BOOTED"),
       (pstr "Jul_17_120005", pstr "Checking quorum")] :=
  put_status_append_only [(pstr "Jul_17_120000", pstr "BOOTED")]
    (pstr "Jul_17_120005") (pstr "Checking quorum") (by decide)

/-! ### The executor: commands as an action trace -/

/-- One external command issued by the executor.  Read-only commands and
durable-state writes are distinguished from cluster-mutating commands by
isClusterMutating below. -/
inductive ExecAction where
  | gcloudListBucketObjects (bucket : Str)
  | gcloudOther (desc : String)
  | qqSetLogLevel (level : String)
  | qqCreateCluster
  | qqLogin
  | qqNodeStateGet (host : Str)
  | qqModifyMembership (node_ips : List Str)
  | qqAddStorageUris (uris : List Str)
  | qqCapacityClamp (clamp : Int)
  | qqNetworkGetConfig
  | qqNetworkPutConfig (flips : List Str)
  | qqChangePassword
  | qqRaw (desc : String)
  | waitForQuorum (host : Str)
  | waitNetworkApplied
  | fsPut (key : Str)
  | fsUpdateStatus
deriving DecidableEq, Repr

/-- Whether an action mutates the cluster.  Bucket-object listings, node
state reads, network config reads, logins, quorum waits and writes to
the provisioner's own Firestore record/status documents are not cluster
mutations; cluster formation, membership changes, storage attach,
capacity clamps, network rewrites, raw PUT/POSTs, log-level and
password changes are. -/
def isClusterMutating : ExecAction → Bool
  | .gcloudListBucketObjects _ => false
  | .gcloudOther _ => false
  | .qqNodeStateGet _ => false
  | .qqNetworkGetConfig => false
  | .qqLogin => false
  | .waitForQuorum _ => false
  | .waitNetworkApplied => false
  | .fsPut _ => false
  | .fsUpdateStatus => false
  | _ => true

/-- Oracle for one executor run.  bucketNonempty b models a non-blank
stdout of gcloud storage objects list on bucket b; nodeId ip is the
node_id parsed from qq node_state_get on ip; finalMembership is the
all_nodes list parsed by parse_quorum_details once the unbounded
convergence poll has exited (the verification read observes this
converged membership); clusterIdLine is the cluster_id line parsed from
node_state_get after formation (none models the IndexError when no line
matches); fsGet/fsGetEx are firestore reads as in PlanEnv;
networkHasFlips/currentFlips model the frontend-network block of
network_v3_get_config. -/
structure ExecEnv where
  bucketNonempty : Str → Bool
  nodeId : Str → Str
  finalMembership : List Str
  clusterIdLine : Option Str
  fsGet : Str → Str
  fsGetEx : Str → Str
  networkHasFlips : Bool
  currentFlips : List Str

/-- Error message of the non-empty-bucket guard (provision.py line 777;
the bucket-name interpolation of the source message is omitted). -/
def bucketNotEmptyMsg : String :=
  "Bucket NOT EMPTY. Empty bucket(s) and restart provisioner."

/-- Error message raised when a removed node id is still in membership
(provision.py lines 948 and 1045; the node-id interpolation of the
source message is omitted). -/
def oldNodeNotRemovedMsg : String :=
  "**Old Node not removed from quorum. Slack Support."

/-- provision.py check_buckets_empty: list each bucket in order
(read-only), raising at the first non-empty one. -/
def check_buckets_empty_model (bucket_names : List Str) (env : ExecEnv) :
    Except PyError Unit × List ExecAction :=
  match bucket_names with
  | [] => (.ok (), [])
  | bucket_name :: rest =>
    if env.bucketNonempty bucket_name then
      (.error (.provisioningError bucketNotEmptyMsg),
       [ExecAction.gcloudListBucketObjects bucket_name])
    else
      ((check_buckets_empty_model rest env).1,
       ExecAction.gcloudListBucketObjects bucket_name ::
         (check_buckets_empty_model rest env).2)

/-- provision.py get_storage_product_type. -/
def get_storage_product_type (storage_type : Str) :
    Except PyError (String × String × String) :=
  if storage_type = pstr "hot_gcs_std" then
    .ok ("ACTIVE_WITH_STANDARD_STORAGE", "Standard", "Hot")
  else if storage_type = pstr "hot_s3_int" then
    .ok ("ACTIVE_WITH_INTELLIGENT_STORAGE", "Intelligent Tiering", "Hot")
  else if storage_type = pstr "cold_s3_ia" then
    .ok ("ARCHIVE_WITH_IA_STORAGE", "Infrequent Access", "Cold")
  else if storage_type = pstr "cold_s3_gir" then
    .ok ("ARCHIVE_WITH_GIR_STORAGE", "Glacier Instant Retrieval", "Cold")
  else
    .error (.provisioningError "Unknown storage type")

/-- Commands issued by apply_cluster_tunables: the two conditional
tunable PUTs, the quorum bounce, the quorum wait and the log-level
reset. -/
def apply_cluster_tunables_trace (cfg : Config) (qq_host : Str) : List ExecAction :=
  (if cfg.tun_refill_iops ≠ 0 then
    [ExecAction.qqRaw "PUT /v1/tunables/credit_accountant_io_refill_iops"] else []) ++
  (if cfg.tun_refill_bps ≠ 0 ∧ cfg.tun_disk_count ≠ 0 then
    [ExecAction.qqRaw "PUT /v1/tunables/credit_accountant_th_refill_blocks_per_second"] else []) ++
  [ExecAction.qqRaw "POST /v1/debug/quorum/abandon-series",
   ExecAction.waitForQuorum qq_host, ExecAction.qqSetLogLevel "QM_LOG_INFO"]

/-- Commands issued by apply_initial_floating_ips: nothing when the pool
is empty or its first entry blank, else the full network write, the
status poll, and the record updates. -/
def apply_initial_floating_ips_trace (cfg : Config) : List ExecAction :=
  match cfg.floating_ips with
  | [] => []
  | f0 :: _ =>
    if f0 = [] then []
    else
      [ExecAction.qqNetworkPutConfig cfg.floating_ips, ExecAction.waitNetworkApplied,
       ExecAction.fsUpdateStatus, ExecAction.fsPut (pstr "float-ips"),
       ExecAction.fsPut (pstr "floating-ip-count")]

/-- Commands issued by maybe_update_floating_ips: read the live config;
fall back to the initial application when no floating IPs are
configured; rewrite the block only when the live set differs. -/
def maybe_update_floating_ips_trace (cfg : Config) (env : ExecEnv) : List ExecAction :=
  ExecAction.qqNetworkGetConfig ::
  (if env.networkHasFlips = false then apply_initial_floating_ips_trace cfg
   else if env.currentFlips ≠ cfg.floating_ips then
     [ExecAction.qqNetworkPutConfig cfg.floating_ips, ExecAction.fsUpdateStatus,
      ExecAction.fsPut (pstr "float-ips"), ExecAction.fsPut (pstr "floating-ip-count")]
   else [])

/-- Commands issued by update_capacity_limit. -/
def update_capacity_limit_trace (cfg : Config) (qq_host : Str) : List ExecAction :=
  [ExecAction.fsUpdateStatus, ExecAction.qqSetLogLevel "QM_LOG_DEBUG",
   ExecAction.qqCapacityClamp cfg.capacity_limit, ExecAction.waitForQuorum qq_host,
   ExecAction.qqSetLogLevel "QM_LOG_INFO", ExecAction.fsPut (pstr "soft-capacity-limit")]

/-- provision.py create_new_cluster: the empty-bucket guard runs FIRST;
only after it (and the storage-type mapping) passes are the log-level
change, the formation command and the rest issued. -/
def create_new_cluster_model (cfg : Config) (env : ExecEnv)
    (_admin_password : Str) : Except PyError Unit × List ExecAction :=
  match (check_buckets_empty_model cfg.bucket_names env).1 with
  | .error e => (.error e, (check_buckets_empty_model cfg.bucket_names env).2)
  | .ok _ =>
    match get_storage_product_type cfg.cluster_persistent_storage_type with
    | .error e => (.error e, (check_buckets_empty_model cfg.bucket_names env).2)
    | .ok _ =>
      let preTrace :=
        (check_buckets_empty_model cfg.bucket_names env).2 ++
        [ExecAction.fsUpdateStatus, ExecAction.qqSetLogLevel "QM_LOG_DEBUG",
         ExecAction.qqCreateCluster, ExecAction.waitForQuorum cfg.node1_ip,
         ExecAction.qqNodeStateGet cfg.node1_ip]
      match env.clusterIdLine with
      | none => (.error .indexError, preTrace)
      | some _ =>
        (.ok (), preTrace ++
          [ExecAction.fsPut (pstr "uuid"), ExecAction.fsPut (pstr "node-ips"),
           ExecAction.fsPut (pstr "fault-domain-ids"), ExecAction.fsPut (pstr "instance-ids"),
           ExecAction.fsPut (pstr "creation-number-azs"), ExecAction.fsPut (pstr "cluster-type"),
           ExecAction.fsPut (pstr "soft-capacity-limit"), ExecAction.fsPut (pstr "bucket-uris"),
           ExecAction.fsPut (pstr "bucket-names"), ExecAction.fsPut (pstr "new-cluster"),
           ExecAction.fsUpdateStatus, ExecAction.qqLogin] ++
          apply_cluster_tunables_trace cfg cfg.node1_ip ++
          [ExecAction.fsPut (pstr "tunables")] ++
          (if cfg.dev_environment then [ExecAction.qqRaw "set_monitoring_conf"] else []) ++
          apply_initial_floating_ips_trace cfg ++
          [ExecAction.qqChangePassword])

/-- provision.py remove_cluster_nodes.  The node ids are recorded from a
node_state_get probe of every target IP before the membership-change
command; the removal selection is the tail of those ids beyond
target_node_count.  The unbounded convergence poll (lines 1033-1039) is
abstracted into env.finalMembership, the all_nodes list observed once
the poll exits and re-read by the verification parse (line 1042). -/
def remove_cluster_nodes_model (cfg : Config) (env : ExecEnv) :
    Except PyError Unit × List ExecAction :=
  let existing_node_ids := cfg.node_ips.map env.nodeId
  let remaining_node_ips := cfg.node_ips.take cfg.target_node_count
  let removed_node_ids := existing_node_ids.drop cfg.target_node_count
  let trHead := cfg.node_ips.map ExecAction.qqNodeStateGet ++
    [ExecAction.fsUpdateStatus,
     ExecAction.qqModifyMembership remaining_node_ips,
     ExecAction.waitForQuorum cfg.node1_ip, ExecAction.fsUpdateStatus]
  if env.finalMembership.any (fun node_id => decide (node_id ∈ removed_node_ids)) then
    (.error (.provisioningError oldNodeNotRemovedMsg), trHead)
  else
    (.ok (), trHead ++
      [ExecAction.fsUpdateStatus, ExecAction.fsPut (pstr "node-ips"),
       ExecAction.fsPut (pstr "fault-domain-ids"),
       ExecAction.fsPut (pstr "instance-ids")])

/-- provision.py replace_existing_cluster.  Pre-swap node ids are
recorded from every IP of the prior deployment's persisted node-ips
record; after the membership change and the convergence poll (abstracted
into env.finalMembership as in remove_cluster_nodes_model) the
verification parse must contain none of them. -/
def replace_existing_cluster_model (cfg : Config) (env : ExecEnv) :
    Except PyError Unit × List ExecAction :=
  if env.fsGetEx (pstr "node-ips") = pstr "null" ∨
     env.fsGetEx (pstr "instance-ids") = pstr "null" then
    (.error (.provisioningError "Cannot find existing cluster information for replacement"), [])
  else
    let existing_ips := deserialize_list_from_firestore (env.fsGetEx (pstr "node-ips"))
    let existing_node_ids := existing_ips.map (fun ip => env.nodeId (pyStrip ip))
    let trHead :=
      [ExecAction.fsUpdateStatus, ExecAction.gcloudOther "compute firewall-rules update"] ++
      existing_ips.map (fun ip => ExecAction.qqNodeStateGet (pyStrip ip)) ++
      [ExecAction.fsUpdateStatus, ExecAction.qqLogin,
       ExecAction.qqSetLogLevel "QM_LOG_DEBUG",
       ExecAction.qqModifyMembership cfg.node_ips, ExecAction.fsUpdateStatus,
       ExecAction.waitForQuorum cfg.node1_ip, ExecAction.fsUpdateStatus]
    if env.finalMembership.any (fun node_id => decide (node_id ∈ existing_node_ids)) then
      (.error (.provisioningError oldNodeNotRemovedMsg), trHead)
    else
      (.ok (), trHead ++
        [ExecAction.fsUpdateStatus, ExecAction.qqNodeStateGet cfg.node1_ip,
         ExecAction.fsPut (pstr "uuid"), ExecAction.fsPut (pstr "node-ips"),
         ExecAction.fsPut (pstr "fault-domain-ids"), ExecAction.fsPut (pstr "instance-ids"),
         ExecAction.fsPut (pstr "creation-number-azs"), ExecAction.fsPut (pstr "cluster-type"),
         ExecAction.fsPut (pstr "soft-capacity-limit"), ExecAction.fsPut (pstr "bucket-uris"),
         ExecAction.fsPut (pstr "bucket-names"), ExecAction.qqLogin] ++
        maybe_update_floating_ips_trace cfg env ++
        [ExecAction.fsPut (pstr "new-cluster"), ExecAction.fsUpdateStatus] ++
        apply_cluster_tunables_trace cfg cfg.node1_ip)

/-- Commands issued by add_cluster_nodes: one membership call covering
all target pairs, a quorum wait on the first new node's IP (the
executor only reaches this with a non-empty addition list), then the
record updates. -/
def add_cluster_nodes_trace (cfg : Config) (upgrade_ips : List Str) : List ExecAction :=
  [ExecAction.fsUpdateStatus, ExecAction.qqModifyMembership cfg.node_ips] ++
  (match upgrade_ips with
   | [] => []
   | ip0 :: _ => [ExecAction.waitForQuorum ip0]) ++
  [ExecAction.fsPut (pstr "node-ips"), ExecAction.fsPut (pstr "fault-domain-ids"),
   ExecAction.fsPut (pstr "instance-ids")]

/-- provision.py add_object_buckets: diff the bucket lists, re-run the
empty-bucket guard on the delta, attach only the delta URIs, persist the
lists and always re-apply the capacity clamp. -/
def add_object_buckets_model (cfg : Config) (env : ExecEnv) :
    Except PyError Unit × List ExecAction :=
  let old_bucket_names := deserialize_list_from_firestore
    (if cfg.replace_cluster then env.fsGetEx (pstr "bucket-names")
     else env.fsGet (pstr "bucket-names"))
  let old_bucket_uris := deserialize_list_from_firestore
    (if cfg.replace_cluster then env.fsGetEx (pstr "bucket-uris")
     else env.fsGet (pstr "bucket-uris"))
  let new_bucket_names := cfg.bucket_names.filter (fun n => decide (n ∉ old_bucket_names))
  let new_bucket_uris := cfg.bucket_uris.filter (fun u => decide (u ∉ old_bucket_uris))
  match (check_buckets_empty_model new_bucket_names env).1 with
  | .error e => (.error e, (check_buckets_empty_model new_bucket_names env).2)
  | .ok _ =>
    (.ok (), (check_buckets_empty_model new_bucket_names env).2 ++
      [ExecAction.fsUpdateStatus, ExecAction.qqSetLogLevel "QM_LOG_DEBUG",
       ExecAction.qqAddStorageUris new_bucket_uris,
       ExecAction.fsPut (pstr "bucket-uris"), ExecAction.fsPut (pstr "bucket-names")] ++
      update_capacity_limit_trace cfg cfg.node1_ip)

/-- Commands issued by update_instance_labels: per instance, a node
state read and two gcloud calls (the loop runs over the parallel
instance-id/node-ip arrays). -/
def update_instance_labels_trace (cfg : Config) : List ExecAction :=
  ExecAction.fsUpdateStatus ::
  ((cfg.instance_ids.zip cfg.node_ips).map (fun p =>
    [ExecAction.qqNodeStateGet p.2, ExecAction.gcloudOther "compute instances list",
     ExecAction.gcloudOther "compute instances update"])).flatten

/-- Error message of the replace-without-new-nodes guard
(provision.py line 1244). -/
def cannotReplaceMsg : String := "Cannot replace cluster without deploying new nodes"

/-- provision.py execute_cluster_operations: the new-cluster branch runs
replace or create; the existing-cluster branch FIRST raises if
replace_cluster is still set, then logs in, adds, removes, reconciles
floating IPs; afterwards the capacity increase, bucket addition and
label refresh run on either successful branch. -/
def execute_cluster_operations_model (cfg : Config) (env : ExecEnv)
    (admin_password : Str) (operation_flags : OperationFlags) :
    Except PyError Unit × List ExecAction :=
  let branch : Except PyError Unit × List ExecAction :=
    if operation_flags.new_cluster then
      if cfg.replace_cluster then replace_existing_cluster_model cfg env
      else create_new_cluster_model cfg env admin_password
    else
      if cfg.replace_cluster then
        (.error (.provisioningError cannotReplaceMsg), [])
      else
        let old_ips := deserialize_list_from_firestore (env.fsGet (pstr "node-ips"))
        let upgrade_ips := upgradeIps cfg.node_ips old_ips
        let trAdd := if operation_flags.add_nodes then
          add_cluster_nodes_trace cfg upgrade_ips else []
        if operation_flags.remove_nodes then
          match (remove_cluster_nodes_model cfg env).1 with
          | .error e =>
            (.error e, ExecAction.qqLogin :: trAdd ++ (remove_cluster_nodes_model cfg env).2)
          | .ok _ =>
            (.ok (), ExecAction.qqLogin :: trAdd ++ (remove_cluster_nodes_model cfg env).2 ++
              maybe_update_floating_ips_trace cfg env)
        else
          (.ok (), ExecAction.qqLogin :: trAdd ++ maybe_update_floating_ips_trace cfg env)
  match branch.1 with
  | .error e => (.error e, branch.2)
  | .ok _ =>
    let trLimit := if operation_flags.increase_limit then
      update_capacity_limit_trace cfg cfg.node1_ip else []
    let buckets := if operation_flags.add_buckets then
      add_object_buckets_model cfg env else (.ok (), [])
    match buckets.1 with
    | .error e => (.error e, branch.2 ++ trLimit ++ buckets.2)
    | .ok _ =>
      (.ok (), branch.2 ++ trLimit ++ buckets.2 ++ update_instance_labels_trace cfg)

/-! ### Claim C3: node-removal safety -/

/-- Claim C3: when remove_cluster_nodes returns normally, the membership
parsed after convergence contains none of the node ids recorded for
removal before the membership-change command, and likewise the node-swap
phase of replace_existing_cluster contains none of the pre-swap ids of
the prior deployment; conversely, if any such pre-recorded id is still
present in the parsed membership, the operation raises ProvisioningError
instead of returning successfully. -/
theorem node_removal_safety (cfg : Config) (env : ExecEnv) :
    ((remove_cluster_nodes_model cfg env).1 = .ok () →
      ∀ node_id ∈ (cfg.node_ips.map env.nodeId).drop cfg.target_node_count,
        node_id ∉ env.finalMembership) ∧
    ((∃ node_id ∈ (cfg.node_ips.map env.nodeId).drop cfg.target_node_count,
        node_id ∈ env.finalMembership) →
      (remove_cluster_nodes_model cfg env).1 =
        .error (.provisioningError oldNodeNotRemovedMsg)) ∧
    ((replace_existing_cluster_model cfg env).1 = .ok () →
      ∀ node_id ∈ (deserialize_list_from_firestore (env.fsGetEx (pstr "node-ips"))).map
          (fun ip => env.nodeId (pyStrip ip)),
        node_id ∉ env.finalMembership) ∧
    ((env.fsGetEx (pstr "node-ips") ≠ pstr "null" ∧
      env.fsGetEx (pstr "instance-ids") ≠ pstr "null" ∧
      ∃ node_id ∈ (deserialize_list_from_firestore (env.fsGetEx (pstr "node-ips"))).map
          (fun ip => env.nodeId (pyStrip ip)),
        node_id ∈ env.finalMembership) →
      (replace_existing_cluster_model cfg env).1 =
        .error (.provisioningError oldNodeNotRemovedMsg)) := by
  refine ⟨?_, ?_, ?_, ?_⟩
  · intro hok node_id hmem hfin
    simp only [remove_cluster_nodes_model] at hok
    split at hok
    case isTrue hc => exact Except.noConfusion hok
    case isFalse hc =>
      exact hc (List.any_eq_true.mpr ⟨node_id, hfin, decide_eq_true hmem⟩)
  · rintro ⟨node_id, hmem, hfin⟩
    simp only [remove_cluster_nodes_model]
    rw [if_pos (List.any_eq_true.mpr ⟨node_id, hfin, decide_eq_true hmem⟩)]
  · intro hok node_id hmem hfin
    simp only [replace_existing_cluster_model] at hok
    split at hok
    case isTrue hc => exact Except.noConfusion hok
    case isFalse hc =>
      split at hok
      case isTrue hc2 => exact Except.noConfusion hok
      case isFalse hc2 =>
        exact hc2 (List.any_eq_true.mpr ⟨node_id, hfin, decide_eq_true hmem⟩)
  · rintro ⟨hips, hids, node_id, hmem, hfin⟩
    simp only [replace_existing_cluster_model]
    rw [if_neg (by push_neg; exact ⟨hips, hids⟩)]
    rw [if_pos (List.any_eq_true.mpr ⟨node_id, hfin, decide_eq_true hmem⟩)]

/-- Shared concrete executor oracle: every bucket non-empty; node ids
equal IPs; the converged membership still contains 10.0.0.4. -/
def envE : ExecEnv :=
  { bucketNonempty := fun _ => true,
    nodeId := fun ip => ip,
    finalMembership := [pstr "10.0.0.1", pstr "10.0.0.2", pstr "10.0.0.4"],
    clusterIdLine := some (pstr "uuid-1"),
    fsGet := fun _ => pstr "null",
    fsGetEx := fun _ => pstr "null",
    networkHasFlips := false,
    currentFlips := [] }

/-- Claim C3 witness: with target [.1,.2,.4], target_node_count 2 and a
converged membership still containing node .4's id, remove_cluster_nodes
raises the removal-safety error. -/
theorem node_removal_safety_witness :
    (remove_cluster_nodes_model cfgC2 envE).1 =
      .error (.provisioningError oldNodeNotRemovedMsg) :=
  (node_removal_safety cfgC2 envE).2.1 ⟨pstr "10.0.0.4", by decide, by decide⟩

/-! ### Claim C4: the empty-bucket guard precedes cluster formation -/

theorem check_buckets_trace_reads (names : List Str) (env : ExecEnv) :
    ∀ a ∈ (check_buckets_empty_model names env).2, isClusterMutating a = false := by
  induction names with
  | nil => intro a ha; exact absurd ha (List.not_mem_nil a)
  | cons b0 rest ih =>
    intro a ha
    simp only [check_buckets_empty_model] at ha
    split at ha
    · simp only [List.mem_singleton] at ha; subst ha; rfl
    · rcases List.mem_cons.mp ha with rfl | ha2
      · rfl
      · exact ih a ha2

theorem check_buckets_error_of_nonempty {names : List Str} {env : ExecEnv}
    (h : ∃ b ∈ names, env.bucketNonempty b = true) :
    (check_buckets_empty_model names env).1 =
      .error (.provisioningError bucketNotEmptyMsg) := by
  induction names with
  | nil => obtain ⟨b, hb, _⟩ := h; exact absurd hb (List.not_mem_nil b)
  | cons b0 rest ih =>
    obtain ⟨b, hb, hbne⟩ := h
    simp only [check_buckets_empty_model]
    by_cases h0 : env.bucketNonempty b0 = true
    · rw [if_pos h0]
    · rw [if_neg h0]
      rcases List.mem_cons.mp hb with rfl | hbrest
      · exact absurd hbne h0
      · exact ih ⟨b, hbrest, hbne⟩

/-- Claim C4: when some target bucket is non-empty, create_new_cluster
raises the non-empty-bucket error, and every command issued up to that
point is a read (a gcloud bucket-object listing): the cluster-formation
command and every other cluster-mutating command come strictly after the
guard, so no cluster mutation has occurred on this error path. -/
theorem create_cluster_bucket_guard (cfg : Config) (env : ExecEnv)
    (admin_password : Str)
    (hne : ∃ b ∈ cfg.bucket_names, env.bucketNonempty b = true) :
    (create_new_cluster_model cfg env admin_password).1 =
      .error (.provisioningError bucketNotEmptyMsg) ∧
    ∀ a ∈ (create_new_cluster_model cfg env admin_password).2,
      isClusterMutating a = false := by
  have h1 := check_buckets_error_of_nonempty hne
  constructor
  · simp only [create_new_cluster_model]
    rw [h1]
  · simp only [create_new_cluster_model]
    rw [h1]
    intro a ha
    exact check_buckets_trace_reads cfg.bucket_names env a ha

/-- Claim C4 witness: the guard theorem at the concrete one-bucket
deployment whose bucket holds an object. -/
theorem create_cluster_bucket_guard_witness :
    (create_new_cluster_model cfgC1nr envE (pstr "pw")).1 =
      .error (.provisioningError bucketNotEmptyMsg) ∧
    ∀ a ∈ (create_new_cluster_model cfgC1nr envE (pstr "pw")).2,
      isClusterMutating a = false :=
  create_cluster_bucket_guard cfgC1nr envE (pstr "pw")
    ⟨pstr "bkt", by decide, rfl⟩

/-! ### Claim C10: replace without new nodes is rejected first -/

/-- Claim C10: if replace_cluster is set but the planner did not decide
new_cluster, execute_cluster_operations raises ProvisioningError
("Cannot replace cluster without deploying new nodes") with an empty
command trace: no membership, bucket, capacity or floating-IP command is
issued on the existing-cluster branch. -/
theorem execute_replace_requires_new_nodes (cfg : Config) (env : ExecEnv)
    (admin_password : Str) (operation_flags : OperationFlags)
    (hrep : cfg.replace_cluster = true)
    (hnc : operation_flags.new_cluster = false) :
    execute_cluster_operations_model cfg env admin_password operation_flags =
      (.error (.provisioningError cannotReplaceMsg), []) := by
  unfold execute_cluster_operations_model
  rw [hnc, hrep]
  simp

/-- Claim C10 witness: the guard theorem at the concrete replacement
deployment with an all-false flag set. -/
theorem execute_replace_requires_new_nodes_witness :
    execute_cluster_operations_model cfgC1 envE (pstr "pw") initFlags =
      (.error (.provisioningError cannotReplaceMsg), []) :=
  execute_replace_requires_new_nodes cfgC1 envE (pstr "pw") initFlags rfl rfl
